import Mathlib

/-
Verification of the UDP/IPv4 endpoint setup in src/modules/misc/network/ipv4.c
(function OpenUDP, helper BuildAddr).

Modelling conventions:
* The embedding fixes the fully-featured POSIX build configuration of the C
  file: not WIN32/UNDER_CE, not SYS_BEOS, and the optional macros
  SO_REUSEPORT, SO_RCVBUF, IP_ADD_SOURCE_MEMBERSHIP and IP_MULTICAST_IF all
  defined.  This is the configuration every claim's cited line range lives in.
* IPv4 addresses are natural numbers below 2^32 in HOST byte order; the
  byte-swapping pair ntohl/htonl of the C code is the identity in this
  model, so `sock.sin_addr.s_addr` and the results of the resolver and of
  inet_addr are host-order values reduced mod 2^32.
* External collaborators (the resolver vlc_getaddrinfo via BuildAddr, the
  OS socket calls, the libc parser inet_addr, the config store
  config_GetPsz/config_GetInt and the variable store var_Get/var_Create)
  are parameters of the run, collected in an `Env`: each OS call's outcome
  is predetermined by the environment, and each call the code performs is
  recorded in an event trace so that properties about which calls happen,
  with which arguments and in which order, can be stated.
-/

namespace Ipv4

/-- `INADDR_ANY` (0.0.0.0), line 76 of ipv4.c. -/
def INADDR_ANY : Nat := 0

/-- `INADDR_NONE` (255.255.255.255), line 79 of ipv4.c; also the failure
return of inet_addr. -/
def INADDR_NONE : Nat := 0xFFFFFFFF

/-- vlc error code returned by OpenUDP on failure (`VLC_EGENERIC`). -/
def VLC_EGENERIC : Int := -666

/-- `IN_MULTICAST(a)` = `IN_CLASSD(a)` = `((a & 0xf0000000) == 0xe0000000)`.
For `a < 2 ^ 32` the top nibble `a & 0xf0000000` equals `(a / 2 ^ 28) * 2 ^ 28`,
so the macro is equivalent to the top nibble quotient being `0xe = 14`;
we use the quotient form, which arithmetic automation handles directly. -/
def IN_MULTICAST (a : Nat) : Bool := a / 2 ^ 28 == 14

/-- One OS / collaborator call performed by OpenUDP, with its arguments and
its outcome.  Each constructor corresponds to one call site in ipv4.c. -/
inductive Event where
  /-- `BuildAddr` (vlc_getaddrinfo) on an address string and port, lines
  106-130; `ok` is whether resolution succeeded. -/
  | resolveCall (addr : String) (port : Int) (ok : Bool)
  /-- `socket(AF_INET, SOCK_DGRAM, 0)`, line 180. -/
  | socketCall (ok : Bool)
  /-- `setsockopt(SO_REUSEADDR, 1)`, line 188. -/
  | sockoptReuseAddr (ok : Bool)
  /-- `setsockopt(SO_REUSEPORT, 1)`, line 192. -/
  | sockoptReusePort (ok : Bool)
  /-- `setsockopt(SO_RCVBUF, size)`, line 200. -/
  | sockoptRcvBuf (size : Nat) (ok : Bool)
  /-- `setsockopt(SO_SNDBUF, size)`, line 205. -/
  | sockoptSndBuf (size : Nat) (ok : Bool)
  /-- `bind` to the resolved local address, line 233. -/
  | bindCall (addr : Nat) (port : Int) (ok : Bool)
  /-- `setsockopt(SO_BROADCAST, 1)`, line 244. -/
  | sockoptBroadcast (ok : Bool)
  /-- `setsockopt(IP_ADD_SOURCE_MEMBERSHIP, imr)`, line 279, with the three
  fields of the `ip_mreq_source` argument. -/
  | addSourceMembership (multi src intf : Nat) (ok : Bool)
  /-- `connect` to the resolved remote address, line 300. -/
  | connectCall (addr : Nat) (port : Int) (ok : Bool)
  /-- `setsockopt(IP_MULTICAST_IF, intf)`, line 321. -/
  | sockoptMulticastIf (intf : Nat) (ok : Bool)
  /-- `setsockopt(IP_MULTICAST_TTL, &ttl, sizeof(unsigned char))`,
  line 340: the byte-sized form. -/
  | sockoptTtlByte (ttl : Nat) (ok : Bool)
  /-- `setsockopt(IP_MULTICAST_TTL, &i_ttl, sizeof(int))`, line 345: the
  integer-sized fallback form. -/
  | sockoptTtlInt (ttl : Int) (ok : Bool)
  /-- `var_Get(p_this, "mtu", &val)`, lines 360 and 363. -/
  | varGetMtu (ok : Bool)
  /-- `var_Create(p_this, "mtu", VLC_VAR_INTEGER | VLC_VAR_DOINHERIT)`,
  line 362. -/
  | varCreateMtu
  /-- `close(i_handle)`, line 370 (the `error:` label). -/
  | closeCall
  deriving Repr, DecidableEq

/-- The in/out `network_socket_t` structure reached through
`p_this->p_private` (fields read and written by OpenUDP). -/
structure network_socket_t where
  psz_bind_addr : String
  i_bind_port : Int
  psz_server_addr : String
  i_server_port : Int
  i_ttl : Int
  i_handle : Int
  i_mtu : Int
  deriving Repr, DecidableEq

/-- The external world OpenUDP interacts with: the outcome of each
collaborator call is fixed by the environment. -/
structure Env where
  /-- `BuildAddr`: resolve an address string and port to a host-order IPv4
  address, `none` on resolution failure. -/
  resolve : String → Int → Option Nat
  /-- whether `socket(AF_INET, SOCK_DGRAM, 0)` succeeds -/
  socketOk : Bool
  /-- the descriptor `socket` returns when it succeeds -/
  sockFd : Nat
  reuseAddrOk : Bool
  reusePortOk : Bool
  rcvbufOk : Bool
  sndbufOk : Bool
  bindOk : Bool
  broadcastOk : Bool
  /-- whether `setsockopt(IP_ADD_SOURCE_MEMBERSHIP, ...)` succeeds -/
  addSourceMembershipOk : Bool
  connectOk : Bool
  multicastIfOk : Bool
  /-- whether the byte-sized `IP_MULTICAST_TTL` call succeeds -/
  ttlByteOk : Bool
  /-- whether the integer-sized `IP_MULTICAST_TTL` call succeeds -/
  ttlIntOk : Bool
  /-- libc `inet_addr` (returns `INADDR_NONE` on parse failure) -/
  inet_addr : String → Nat
  /-- `config_GetPsz(p_this, "miface-addr")`: `none` models a NULL return -/
  mifaceAddr : Option String
  /-- `config_GetInt(p_this, "ttl")` -/
  configTtl : Int
  /-- current value of the session variable "mtu", `none` when `var_Get`
  fails because the variable does not exist yet -/
  mtuVar : Option Int
  /-- the value "mtu" is initialized to by `var_Create` with
  `VLC_VAR_DOINHERIT` (the configured default) -/
  defaultMtu : Int

/-- Result of one OpenUDP call: the C return value, the updated
`network_socket_t`, and the trace of collaborator calls performed. -/
structure UDPResult where
  ret : Int
  sock : network_socket_t
  trace : List Event
  deriving Repr

/-- `inet_addr` as used by the code: a 32-bit value. -/
def inetAddr (env : Env) (s : String) : Nat := env.inet_addr s % 2 ^ 32

/-- Interface chosen for the multicast join, lines 267-271: the configured
"miface-addr" when non-NULL, non-empty and parseable, else `INADDR_ANY`. -/
def joinIntf (env : Env) : Nat :=
  match env.mifaceAddr with
  | some s =>
      if s ≠ "" ∧ inetAddr env s ≠ INADDR_NONE then inetAddr env s else INADDR_ANY
  | none => INADDR_ANY

/-- Events of the multicast-join branch, lines 251-288: one
`IP_ADD_SOURCE_MEMBERSHIP` call whose `ip_mreq_source` has the bound
multicast address, `inet_addr(psz_server_addr)` as source, and the
selected interface. -/
def joinEvents (env : Env) (p : network_socket_t) (sockAddr : Nat) : List Event :=
  [Event.addSourceMembership sockAddr (inetAddr env p.psz_server_addr)
      (joinIntf env) env.addSourceMembershipOk]

/-- Whether the multicast-join branch hits `goto error` (line 286). -/
def joinFatal (env : Env) : Bool := !env.addSourceMembershipOk

/-- Whether the `IP_MULTICAST_IF` step (lines 314-327) hits `goto error`:
only when "miface-addr" is non-NULL and the setsockopt fails. -/
def mifaceFatal (env : Env) : Bool :=
  match env.mifaceAddr with
  | none => false
  | some _ => !env.multicastIfOk

/-- Events of the `IP_MULTICAST_IF` step, lines 314-327.  Note the C code
only tests the config string for NULL, not for emptiness, before applying
`inet_addr` to it. -/
def mifaceEvents (env : Env) : List Event :=
  match env.mifaceAddr with
  | none => []
  | some s => [Event.sockoptMulticastIf (inetAddr env s) env.multicastIfOk]

/-- The TTL actually used, lines 329-330: the explicit `i_ttl` of the
socket structure when positive, else `config_GetInt(p_this, "ttl")`. -/
def effectiveTtl (env : Env) (i_ttl : Int) : Int :=
  if i_ttl ≤ 0 then env.configTtl else i_ttl

/-- Events of the TTL application, lines 332-353: when the effective TTL is
positive, try the byte-sized `IP_MULTICAST_TTL` first (argument
`(unsigned char) i_ttl`), and only when it fails retry with the
integer-sized form. -/
def ttlStepEvents (env : Env) (i_ttl0 : Int) : List Event :=
  let i_ttl := effectiveTtl env i_ttl0
  if i_ttl > 0 then
    let ttl : Nat := i_ttl.toNat % 256
    if env.ttlByteOk then [Event.sockoptTtlByte ttl true]
    else if env.ttlIntOk then
      [Event.sockoptTtlByte ttl false, Event.sockoptTtlInt i_ttl true]
    else
      [Event.sockoptTtlByte ttl false, Event.sockoptTtlInt i_ttl false]
  else []

/-- Whether the TTL application hits `goto error` (line 350): only when the
effective TTL is positive and both forms fail. -/
def ttlStepFatal (env : Env) (i_ttl0 : Int) : Bool :=
  if effectiveTtl env i_ttl0 > 0 then !env.ttlByteOk && !env.ttlIntOk else false

/-- Events of the connect (unicast) branch, lines 291-356: resolve the
remote address, `connect`, and — when `inet_addr(psz_server_addr)` is
multicast — the `IP_MULTICAST_IF` and `IP_MULTICAST_TTL` steps. -/
def connectEvents (env : Env) (p : network_socket_t) : List Event :=
  match env.resolve p.psz_server_addr p.i_server_port with
  | none => [Event.resolveCall p.psz_server_addr p.i_server_port false]
  | some raddr =>
      Event.resolveCall p.psz_server_addr p.i_server_port true ::
      Event.connectCall (raddr % 2 ^ 32) p.i_server_port env.connectOk ::
      (if env.connectOk then
        (if IN_MULTICAST (inetAddr env p.psz_server_addr) then
          mifaceEvents env ++
            (if mifaceFatal env then [] else ttlStepEvents env p.i_ttl)
        else [])
      else [])

/-- Whether the connect branch hits `goto error`. -/
def connectFatal (env : Env) (p : network_socket_t) : Bool :=
  match env.resolve p.psz_server_addr p.i_server_port with
  | none => true
  | some _ =>
      if env.connectOk then
        (if IN_MULTICAST (inetAddr env p.psz_server_addr) then
          (if mifaceFatal env then true else ttlStepFatal env p.i_ttl)
        else false)
      else true

/-- Events of the MTU attachment, lines 360-364: `var_Get "mtu"`, and when
it fails, `var_Create` followed by a second `var_Get`. -/
def mtuEvents (env : Env) : List Event :=
  match env.mtuVar with
  | some _ => [Event.varGetMtu true]
  | none => [Event.varGetMtu false, Event.varCreateMtu, Event.varGetMtu true]

/-- The MTU value read and stored in `p_socket->i_mtu` on success. -/
def mtuValue (env : Env) : Int :=
  match env.mtuVar with
  | some v => v
  | none => env.defaultMtu

/-- Shallow embedding of `OpenUDP` (ipv4.c lines 156-372), POSIX
configuration.  Returns the C return value, the updated socket structure
(`i_handle` is set to -1 on entry at line 172, and to the descriptor only
at line 358 on success; `i_mtu` is written only on success at line 365),
and the trace of collaborator calls. -/
def OpenUDP (env : Env) (p : network_socket_t) : UDPResult :=
  match env.resolve p.psz_bind_addr p.i_bind_port with
  | none =>
      { ret := VLC_EGENERIC, sock := { p with i_handle := -1 },
        trace := [Event.resolveCall p.psz_bind_addr p.i_bind_port false] }
  | some baddr =>
      if env.socketOk then
        let sockAddr := baddr % 2 ^ 32
        let tPre : List Event :=
          [Event.resolveCall p.psz_bind_addr p.i_bind_port true,
           Event.socketCall true,
           Event.sockoptReuseAddr env.reuseAddrOk,
           Event.sockoptReusePort env.reusePortOk,
           Event.sockoptRcvBuf 524288 env.rcvbufOk,
           Event.sockoptSndBuf 524288 env.sndbufOk]
        if env.bindOk then
          let tBind : List Event :=
            tPre ++ [Event.bindCall sockAddr p.i_bind_port true] ++
              (if p.psz_bind_addr = "" then
                [Event.sockoptBroadcast env.broadcastOk]
              else [])
          if IN_MULTICAST sockAddr then
            if joinFatal env then
              { ret := VLC_EGENERIC, sock := { p with i_handle := -1 },
                trace := tBind ++ joinEvents env p sockAddr ++ [Event.closeCall] }
            else
              { ret := 0,
                sock :=
                  { p with i_handle := Int.ofNat env.sockFd, i_mtu := mtuValue env },
                trace := tBind ++ joinEvents env p sockAddr ++ mtuEvents env }
          else
            if connectFatal env p then
              { ret := VLC_EGENERIC, sock := { p with i_handle := -1 },
                trace := tBind ++ connectEvents env p ++ [Event.closeCall] }
            else
              { ret := 0,
                sock :=
                  { p with i_handle := Int.ofNat env.sockFd, i_mtu := mtuValue env },
                trace := tBind ++ connectEvents env p ++ mtuEvents env }
        else
          { ret := VLC_EGENERIC, sock := { p with i_handle := -1 },
            trace := tPre ++
              [Event.bindCall (baddr % 2 ^ 32) p.i_bind_port false,
               Event.closeCall] }
      else
        { ret := VLC_EGENERIC, sock := { p with i_handle := -1 },
          trace := [Event.resolveCall p.psz_bind_addr p.i_bind_port true,
                    Event.socketCall false] }

/-- Event classifiers used to state the claims. -/
def isConnectEvent : Event → Bool
  | Event.connectCall _ _ _ => true
  | _ => false

def isJoinEvent : Event → Bool
  | Event.addSourceMembership _ _ _ _ => true
  | _ => false

def isSocketCreated : Event → Bool
  | Event.socketCall true => true
  | _ => false

def isSocketAttempt : Event → Bool
  | Event.socketCall _ => true
  | _ => false

def isCloseEvent : Event → Bool
  | Event.closeCall => true
  | _ => false

def isTtlEvent : Event → Bool
  | Event.sockoptTtlByte _ _ => true
  | Event.sockoptTtlInt _ _ => true
  | _ => false

def isBroadcastEvent : Event → Bool
  | Event.sockoptBroadcast _ => true
  | _ => false

def isVarCreateEvent : Event → Bool
  | Event.varCreateMtu => true
  | _ => false

/-- The trace contains a `connect` call. -/
def hasConnect (t : List Event) : Bool := t.any isConnectEvent

/-- The trace contains a group-membership socket option call. -/
def hasJoin (t : List Event) : Bool := t.any isJoinEvent

/-- The trace contains a `SO_BROADCAST` call. -/
def hasBroadcast (t : List Event) : Bool := t.any isBroadcastEvent

/-- The trace contains a `var_Create` of the "mtu" variable. -/
def hasVarCreate (t : List Event) : Bool := t.any isVarCreateEvent

/-- Number of successfully created socket descriptors in the trace. -/
def openedCount (t : List Event) : Nat := (t.filter isSocketCreated).length

/-- Number of `close` calls in the trace. -/
def closedCount (t : List Event) : Nat := (t.filter isCloseEvent).length

/-- The subtrace of `IP_MULTICAST_TTL` attempts, in order. -/
def ttlEvents (t : List Event) : List Event := t.filter isTtlEvent

/-- A concrete environment where every collaborator call succeeds, used to
exhibit concrete runs of `OpenUDP`: the resolver knows the addresses of the
spec scenarios, `inet_addr` parses the two dotted quads that occur in them
and returns `INADDR_NONE` on anything else (in particular on the empty
string, as libc does). -/
def baseEnv : Env where
  resolve := fun s _ =>
    if s = "" then some 0
    else if s = "239.255.12.42" then some 0xEFFF0C2A
    else if s = "10.0.0.5" then some 0x0A000005
    else if s = "192.168.1.10" then some 0xC0A8010A
    else none
  socketOk := true
  sockFd := 7
  reuseAddrOk := true
  reusePortOk := true
  rcvbufOk := true
  sndbufOk := true
  bindOk := true
  broadcastOk := true
  addSourceMembershipOk := true
  connectOk := true
  multicastIfOk := true
  ttlByteOk := true
  ttlIntOk := true
  inet_addr := fun s =>
    if s = "239.255.12.42" then 0xEFFF0C2A
    else if s = "10.0.0.5" then 0x0A000005
    else 0xFFFFFFFF
  mifaceAddr := none
  configTtl := 16
  mtuVar := none
  defaultMtu := 1500

/-- Spec scenario: multicast bind with a source address
(bind="239.255.12.42":5004, server="10.0.0.5"). -/
def pMulti : network_socket_t :=
  { psz_bind_addr := "239.255.12.42", i_bind_port := 5004,
    psz_server_addr := "10.0.0.5", i_server_port := 0,
    i_ttl := 0, i_handle := 0, i_mtu := 0 }

/-- Spec scenario: wildcard bind, multicast send
(bind="":5004, server="239.255.12.42":5004, ttl=0). -/
def pConn : network_socket_t :=
  { psz_bind_addr := "", i_bind_port := 5004,
    psz_server_addr := "239.255.12.42", i_server_port := 5004,
    i_ttl := 0, i_handle := 0, i_mtu := 0 }

/-- Spec scenario: wildcard bind, unicast connect
(bind="":1234, server="192.168.1.10":5000). -/
def pUni : network_socket_t :=
  { psz_bind_addr := "", i_bind_port := 1234,
    psz_server_addr := "192.168.1.10", i_server_port := 5000,
    i_ttl := 0, i_handle := 0, i_mtu := 0 }

/-- Multicast bind with NO source address supplied
(bind="239.255.12.42":5004, server=""). -/
def pNoSrc : network_socket_t :=
  { psz_bind_addr := "239.255.12.42", i_bind_port := 5004,
    psz_server_addr := "", i_server_port := 0,
    i_ttl := 0, i_handle := 0, i_mtu := 0 }

/-- The multicast (class D) range test agrees with the numeric range
224.0.0.0 (0xE0000000) to 239.255.255.255 (0xEFFFFFFF). -/
theorem IN_MULTICAST_iff_range (a : Nat) (h : a < 2 ^ 32) :
    IN_MULTICAST a = true ↔ (0xE0000000 ≤ a ∧ a ≤ 0xEFFFFFFF) := by
  unfold IN_MULTICAST
  simp only [beq_iff_eq]
  constructor
  · intro hb
    omega
  · intro hb
    omega

@[simp] lemma hasConnect_append (t1 t2 : List Event) :
    hasConnect (t1 ++ t2) = (hasConnect t1 || hasConnect t2) := by
  simp [hasConnect]

@[simp] lemma hasJoin_append (t1 t2 : List Event) :
    hasJoin (t1 ++ t2) = (hasJoin t1 || hasJoin t2) := by
  simp [hasJoin]

@[simp] lemma hasBroadcast_append (t1 t2 : List Event) :
    hasBroadcast (t1 ++ t2) = (hasBroadcast t1 || hasBroadcast t2) := by
  simp [hasBroadcast]

@[simp] lemma hasVarCreate_append (t1 t2 : List Event) :
    hasVarCreate (t1 ++ t2) = (hasVarCreate t1 || hasVarCreate t2) := by
  simp [hasVarCreate]

@[simp] lemma ttlEvents_append (t1 t2 : List Event) :
    ttlEvents (t1 ++ t2) = ttlEvents t1 ++ ttlEvents t2 := by
  simp [ttlEvents]

@[simp] lemma openedCount_append (t1 t2 : List Event) :
    openedCount (t1 ++ t2) = openedCount t1 + openedCount t2 := by
  simp [openedCount]

@[simp] lemma closedCount_append (t1 t2 : List Event) :
    closedCount (t1 ++ t2) = closedCount t1 + closedCount t2 := by
  simp [closedCount]

@[simp] lemma hasConnect_mtuEvents (env : Env) : hasConnect (mtuEvents env) = false := by
  cases h : env.mtuVar <;> simp [mtuEvents, h, hasConnect, isConnectEvent]

@[simp] lemma hasJoin_mtuEvents (env : Env) : hasJoin (mtuEvents env) = false := by
  cases h : env.mtuVar <;> simp [mtuEvents, h, hasJoin, isJoinEvent]

@[simp] lemma hasBroadcast_mtuEvents (env : Env) : hasBroadcast (mtuEvents env) = false := by
  cases h : env.mtuVar <;> simp [mtuEvents, h, hasBroadcast, isBroadcastEvent]

@[simp] lemma ttlEvents_mtuEvents (env : Env) : ttlEvents (mtuEvents env) = [] := by
  cases h : env.mtuVar <;> simp [mtuEvents, h, ttlEvents, isTtlEvent]

@[simp] lemma openedCount_mtuEvents (env : Env) : openedCount (mtuEvents env) = 0 := by
  cases h : env.mtuVar <;> simp [mtuEvents, h, openedCount, isSocketCreated]

@[simp] lemma closedCount_mtuEvents (env : Env) : closedCount (mtuEvents env) = 0 := by
  cases h : env.mtuVar <;> simp [mtuEvents, h, closedCount, isCloseEvent]

@[simp] lemma hasConnect_joinEvents (env : Env) (p : network_socket_t) (a : Nat) :
    hasConnect (joinEvents env p a) = false := by
  simp [joinEvents, hasConnect, isConnectEvent]

@[simp] lemma hasJoin_joinEvents (env : Env) (p : network_socket_t) (a : Nat) :
    hasJoin (joinEvents env p a) = true := by
  simp [joinEvents, hasJoin, isJoinEvent]

@[simp] lemma hasBroadcast_joinEvents (env : Env) (p : network_socket_t) (a : Nat) :
    hasBroadcast (joinEvents env p a) = false := by
  simp [joinEvents, hasBroadcast, isBroadcastEvent]

@[simp] lemma ttlEvents_joinEvents (env : Env) (p : network_socket_t) (a : Nat) :
    ttlEvents (joinEvents env p a) = [] := by
  simp [joinEvents, ttlEvents, isTtlEvent]

@[simp] lemma openedCount_joinEvents (env : Env) (p : network_socket_t) (a : Nat) :
    openedCount (joinEvents env p a) = 0 := by
  simp [joinEvents, openedCount, isSocketCreated]

@[simp] lemma closedCount_joinEvents (env : Env) (p : network_socket_t) (a : Nat) :
    closedCount (joinEvents env p a) = 0 := by
  simp [joinEvents, closedCount, isCloseEvent]

@[simp] lemma hasJoin_mifaceEvents (env : Env) : hasJoin (mifaceEvents env) = false := by
  cases h : env.mifaceAddr <;> simp [mifaceEvents, h, hasJoin, isJoinEvent]

@[simp] lemma hasConnect_mifaceEvents (env : Env) : hasConnect (mifaceEvents env) = false := by
  cases h : env.mifaceAddr <;> simp [mifaceEvents, h, hasConnect, isConnectEvent]

@[simp] lemma hasBroadcast_mifaceEvents (env : Env) :
    hasBroadcast (mifaceEvents env) = false := by
  cases h : env.mifaceAddr <;> simp [mifaceEvents, h, hasBroadcast, isBroadcastEvent]

@[simp] lemma ttlEvents_mifaceEvents (env : Env) : ttlEvents (mifaceEvents env) = [] := by
  cases h : env.mifaceAddr <;> simp [mifaceEvents, h, ttlEvents, isTtlEvent]

@[simp] lemma openedCount_mifaceEvents (env : Env) : openedCount (mifaceEvents env) = 0 := by
  cases h : env.mifaceAddr <;> simp [mifaceEvents, h, openedCount, isSocketCreated]

@[simp] lemma closedCount_mifaceEvents (env : Env) : closedCount (mifaceEvents env) = 0 := by
  cases h : env.mifaceAddr <;> simp [mifaceEvents, h, closedCount, isCloseEvent]

@[simp] lemma hasJoin_ttlStepEvents (env : Env) (t : Int) :
    hasJoin (ttlStepEvents env t) = false := by
  simp only [ttlStepEvents]
  split <;> [skip; simp [hasJoin]]
  split <;> [skip; split] <;> simp [hasJoin, isJoinEvent]

@[simp] lemma hasConnect_ttlStepEvents (env : Env) (t : Int) :
    hasConnect (ttlStepEvents env t) = false := by
  simp only [ttlStepEvents]
  split <;> [skip; simp [hasConnect]]
  split <;> [skip; split] <;> simp [hasConnect, isConnectEvent]

@[simp] lemma hasBroadcast_ttlStepEvents (env : Env) (t : Int) :
    hasBroadcast (ttlStepEvents env t) = false := by
  simp only [ttlStepEvents]
  split <;> [skip; simp [hasBroadcast]]
  split <;> [skip; split] <;> simp [hasBroadcast, isBroadcastEvent]

@[simp] lemma ttlEvents_ttlStepEvents (env : Env) (t : Int) :
    ttlEvents (ttlStepEvents env t) = ttlStepEvents env t := by
  simp only [ttlStepEvents]
  split <;> [skip; simp [ttlEvents]]
  split <;> [skip; split] <;> simp [ttlEvents, isTtlEvent]

@[simp] lemma openedCount_ttlStepEvents (env : Env) (t : Int) :
    openedCount (ttlStepEvents env t) = 0 := by
  simp only [ttlStepEvents]
  split <;> [skip; simp [openedCount]]
  split <;> [skip; split] <;> simp [openedCount, isSocketCreated]

@[simp] lemma closedCount_ttlStepEvents (env : Env) (t : Int) :
    closedCount (ttlStepEvents env t) = 0 := by
  simp only [ttlStepEvents]
  split <;> [skip; simp [closedCount]]
  split <;> [skip; split] <;> simp [closedCount, isCloseEvent]

@[simp] lemma hasJoin_cons (e : Event) (t : List Event) :
    hasJoin (e :: t) = (isJoinEvent e || hasJoin t) := rfl

@[simp] lemma hasConnect_cons (e : Event) (t : List Event) :
    hasConnect (e :: t) = (isConnectEvent e || hasConnect t) := rfl

@[simp] lemma hasBroadcast_cons (e : Event) (t : List Event) :
    hasBroadcast (e :: t) = (isBroadcastEvent e || hasBroadcast t) := rfl

@[simp] lemma hasVarCreate_cons (e : Event) (t : List Event) :
    hasVarCreate (e :: t) = (isVarCreateEvent e || hasVarCreate t) := rfl

@[simp] lemma hasJoin_nil : hasJoin [] = false := rfl
@[simp] lemma hasConnect_nil : hasConnect [] = false := rfl
@[simp] lemma hasBroadcast_nil : hasBroadcast [] = false := rfl
@[simp] lemma hasVarCreate_nil : hasVarCreate [] = false := rfl
@[simp] lemma ttlEvents_nil : ttlEvents [] = [] := rfl
@[simp] lemma openedCount_nil : openedCount [] = 0 := rfl
@[simp] lemma closedCount_nil : closedCount [] = 0 := rfl

@[simp] lemma hasJoin_connectEvents (env : Env) (p : network_socket_t) :
    hasJoin (connectEvents env p) = false := by
  simp only [connectEvents]
  cases h : env.resolve p.psz_server_addr p.i_server_port <;>
    simp [apply_ite hasJoin, isJoinEvent]

@[simp] lemma hasBroadcast_connectEvents (env : Env) (p : network_socket_t) :
    hasBroadcast (connectEvents env p) = false := by
  simp only [connectEvents]
  cases h : env.resolve p.psz_server_addr p.i_server_port <;>
    simp [apply_ite hasBroadcast, isBroadcastEvent]

@[simp] lemma openedCount_cons (e : Event) (t : List Event) :
    openedCount (e :: t) =
      if isSocketCreated e then openedCount t + 1 else openedCount t := by
  simp only [openedCount, List.filter_cons]
  split <;> simp

@[simp] lemma closedCount_cons (e : Event) (t : List Event) :
    closedCount (e :: t) =
      if isCloseEvent e then closedCount t + 1 else closedCount t := by
  simp only [closedCount, List.filter_cons]
  split <;> simp

@[simp] lemma openedCount_connectEvents (env : Env) (p : network_socket_t) :
    openedCount (connectEvents env p) = 0 := by
  simp only [connectEvents]
  cases h : env.resolve p.psz_server_addr p.i_server_port <;>
    simp [apply_ite openedCount, isSocketCreated]

@[simp] lemma closedCount_connectEvents (env : Env) (p : network_socket_t) :
    closedCount (connectEvents env p) = 0 := by
  simp only [connectEvents]
  cases h : env.resolve p.psz_server_addr p.i_server_port <;>
    simp [apply_ite closedCount, isCloseEvent]

lemma hasConnect_connectEvents (env : Env) (p : network_socket_t) (r : Nat)
    (h : env.resolve p.psz_server_addr p.i_server_port = some r) :
    hasConnect (connectEvents env p) = true := by
  simp [connectEvents, h, hasConnect, isConnectEvent]

@[simp] lemma ttlEvents_cons (e : Event) (t : List Event) :
    ttlEvents (e :: t) = if isTtlEvent e then e :: ttlEvents t else ttlEvents t := by
  simp only [ttlEvents, List.filter_cons]

lemma ttlEvents_connectEvents (env : Env) (p : network_socket_t) (r : Nat)
    (h : env.resolve p.psz_server_addr p.i_server_port = some r)
    (hc : env.connectOk = true)
    (hm : IN_MULTICAST (inetAddr env p.psz_server_addr) = true)
    (hmf : mifaceFatal env = false) :
    ttlEvents (connectEvents env p) = ttlStepEvents env p.i_ttl := by
  simp [connectEvents, h, hc, hm, hmf, isTtlEvent]

@[simp] lemma hasVarCreate_mifaceEvents (env : Env) :
    hasVarCreate (mifaceEvents env) = false := by
  cases h : env.mifaceAddr <;> simp [mifaceEvents, h, isVarCreateEvent]

@[simp] lemma hasVarCreate_ttlStepEvents (env : Env) (t : Int) :
    hasVarCreate (ttlStepEvents env t) = false := by
  simp only [ttlStepEvents]
  split <;> [skip; simp]
  split <;> [skip; split] <;> simp [isVarCreateEvent]

@[simp] lemma hasVarCreate_joinEvents (env : Env) (p : network_socket_t) (a : Nat) :
    hasVarCreate (joinEvents env p a) = false := by
  simp [joinEvents, isVarCreateEvent]

@[simp] lemma hasVarCreate_connectEvents (env : Env) (p : network_socket_t) :
    hasVarCreate (connectEvents env p) = false := by
  simp only [connectEvents]
  cases h : env.resolve p.psz_server_addr p.i_server_port <;>
    simp [apply_ite hasVarCreate, isVarCreateEvent]

/-- On the connect path (resolved non-multicast bind address, socket and
bind successful), the return value is decided by `connectFatal` and the
`IP_MULTICAST_TTL` attempts of the whole run are exactly those of the
connect branch. -/
lemma OpenUDP_connect_path (env : Env) (p : network_socket_t) (a : Nat)
    (hres : env.resolve p.psz_bind_addr p.i_bind_port = some a)
    (hnm : IN_MULTICAST (a % 2 ^ 32) = false)
    (hs : env.socketOk = true) (hb : env.bindOk = true) :
    (OpenUDP env p).ret = (if connectFatal env p = true then VLC_EGENERIC else 0) ∧
    ttlEvents (OpenUDP env p).trace = ttlEvents (connectEvents env p) := by
  norm_num at hnm
  simp only [OpenUDP, hres]
  by_cases hbe : p.psz_bind_addr = "" <;>
    cases hcf : connectFatal env p <;>
      simp [hs, hb, hnm, hbe, hcf, isTtlEvent]

/-- On the connect path with a multicast remote address and a successful
(or absent) interface step, `connectFatal` reduces to the TTL step. -/
lemma connectFatal_eq_ttlStepFatal (env : Env) (p : network_socket_t) (r : Nat)
    (hr : env.resolve p.psz_server_addr p.i_server_port = some r)
    (hc : env.connectOk = true)
    (hsm : IN_MULTICAST (inetAddr env p.psz_server_addr) = true)
    (hmf : mifaceFatal env = false) :
    connectFatal env p = ttlStepFatal env p.i_ttl := by
  simp [connectFatal, hr, hc, hsm, hmf]

/-- Claim C1: a setup call whose resolved bind address is in the multicast
range 224.0.0.0-239.255.255.255 takes the multicast join path (a
group-membership socket option once socket creation and bind succeed) and
never calls connect; a setup call whose resolved bind address is any other
IPv4 address never performs a group join, and (once socket creation and
bind succeed and the remote address resolves) attempts connect. -/
theorem C1_bind_path_selection (env : Env) (p : network_socket_t) (a : Nat)
    (hres : env.resolve p.psz_bind_addr p.i_bind_port = some a) :
    ((0xE0000000 ≤ a % 2 ^ 32 ∧ a % 2 ^ 32 ≤ 0xEFFFFFFF) →
      hasConnect (OpenUDP env p).trace = false ∧
      (env.socketOk = true → env.bindOk = true →
        hasJoin (OpenUDP env p).trace = true)) ∧
    (¬(0xE0000000 ≤ a % 2 ^ 32 ∧ a % 2 ^ 32 ≤ 0xEFFFFFFF) →
      hasJoin (OpenUDP env p).trace = false ∧
      (env.socketOk = true → env.bindOk = true →
        ∀ r, env.resolve p.psz_server_addr p.i_server_port = some r →
          hasConnect (OpenUDP env p).trace = true)) := by
  have hlt : a % 2 ^ 32 < 2 ^ 32 := Nat.mod_lt a (by norm_num)
  have hiff := IN_MULTICAST_iff_range (a % 2 ^ 32) hlt
  constructor
  · intro hrange
    have hm : IN_MULTICAST (a % 2 ^ 32) = true := hiff.mpr hrange
    norm_num at hm
    simp only [OpenUDP, hres]
    cases hs : env.socketOk with
    | false => simp [isConnectEvent, isJoinEvent]
    | true =>
      cases hb : env.bindOk with
      | false => simp [isConnectEvent, isJoinEvent]
      | true =>
        by_cases hbe : p.psz_bind_addr = "" <;>
          cases hjf : joinFatal env <;>
            simp [hm, hbe, hjf, isConnectEvent, isJoinEvent, isBroadcastEvent]
  · intro hrange
    have hm : IN_MULTICAST (a % 2 ^ 32) = false := by
      cases hm2 : IN_MULTICAST (a % 2 ^ 32)
      · rfl
      · exact absurd (hiff.mp hm2) hrange
    norm_num at hm
    simp only [OpenUDP, hres]
    cases hs : env.socketOk with
    | false => simp [isConnectEvent, isJoinEvent]
    | true =>
      cases hb : env.bindOk with
      | false => simp [isConnectEvent, isJoinEvent]
      | true =>
        refine ⟨?_, ?_⟩
        · by_cases hbe : p.psz_bind_addr = "" <;>
            cases hcf : connectFatal env p <;>
              simp [hm, hbe, hcf, isConnectEvent, isJoinEvent, isBroadcastEvent]
        · intro _ _ r hr
          by_cases hbe : p.psz_bind_addr = "" <;>
            cases hcf : connectFatal env p <;>
              simp [hm, hbe, hcf, hasConnect_connectEvents env p r hr]

/-- Witness for C1: the multicast scenario bind="239.255.12.42":5004 joins
and never connects; the unicast scenario bind="":1234,
server="192.168.1.10":5000 connects and never joins. -/
theorem C1_bind_path_selection_witness :
    (baseEnv.resolve pMulti.psz_bind_addr pMulti.i_bind_port = some 0xEFFF0C2A ∧
      hasConnect (OpenUDP baseEnv pMulti).trace = false ∧
      hasJoin (OpenUDP baseEnv pMulti).trace = true) ∧
    (baseEnv.resolve pUni.psz_bind_addr pUni.i_bind_port = some 0 ∧
      hasJoin (OpenUDP baseEnv pUni).trace = false ∧
      hasConnect (OpenUDP baseEnv pUni).trace = true) := by
  have h1 := C1_bind_path_selection baseEnv pMulti 0xEFFF0C2A (by decide)
  have h2 := C1_bind_path_selection baseEnv pUni 0 (by decide)
  refine ⟨⟨by decide, (h1.1 (by decide)).1, (h1.1 (by decide)).2 rfl rfl⟩,
    ⟨by decide, (h2.2 (by decide)).1, (h2.2 (by decide)).2 rfl rfl 0xC0A8010A (by decide)⟩⟩

/-- Claim C3: whenever OpenUDP fails, every socket descriptor it created
has been closed, and the caller-visible handle field is -1; and when
resolution of the bind address fails, it returns `VLC_EGENERIC` without
ever attempting socket creation. -/
theorem C3_no_descriptor_leak (env : Env) (p : network_socket_t) :
    ((OpenUDP env p).ret ≠ 0 →
      closedCount (OpenUDP env p).trace = openedCount (OpenUDP env p).trace ∧
      (OpenUDP env p).sock.i_handle = -1) ∧
    (env.resolve p.psz_bind_addr p.i_bind_port = none →
      (OpenUDP env p).ret = VLC_EGENERIC ∧
      (OpenUDP env p).trace.any isSocketAttempt = false) := by
  cases hres : env.resolve p.psz_bind_addr p.i_bind_port with
  | none =>
    constructor
    · intro _
      simp [OpenUDP, hres, isCloseEvent, isSocketCreated]
    · intro _
      simp [OpenUDP, hres, isSocketAttempt]
  | some a =>
    refine ⟨?_, by intro h; simp at h⟩
    intro hret
    simp only [OpenUDP, hres] at hret ⊢
    cases hs : env.socketOk with
    | false => simp [hs, isCloseEvent, isSocketCreated]
    | true =>
      cases hb : env.bindOk with
      | false =>
        simp [hs, hb, isCloseEvent, isSocketCreated]
      | true =>
        by_cases hbe : p.psz_bind_addr = "" <;>
          cases hm : IN_MULTICAST (a % 4294967296) <;>
            cases hjf : joinFatal env <;>
              cases hcf : connectFatal env p <;>
                simp_all [isCloseEvent, isSocketCreated, isBroadcastEvent]

/-- Witness for C3: with a failing bind call the run fails, the one created
descriptor is closed and the handle is -1; with a failing resolver no
socket is ever created. -/
theorem C3_no_descriptor_leak_witness :
    ((OpenUDP { baseEnv with bindOk := false } pUni).ret ≠ 0 ∧
      closedCount (OpenUDP { baseEnv with bindOk := false } pUni).trace =
        openedCount (OpenUDP { baseEnv with bindOk := false } pUni).trace ∧
      (OpenUDP { baseEnv with bindOk := false } pUni).sock.i_handle = -1) ∧
    (({ baseEnv with resolve := fun _ _ => none } : Env).resolve
        pUni.psz_bind_addr pUni.i_bind_port = none ∧
      (OpenUDP { baseEnv with resolve := fun _ _ => none } pUni).ret = VLC_EGENERIC ∧
      (OpenUDP { baseEnv with resolve := fun _ _ => none } pUni).trace.any
        isSocketAttempt = false) := by
  have h1 := (C3_no_descriptor_leak { baseEnv with bindOk := false } pUni).1 (by decide)
  have h2 := (C3_no_descriptor_leak { baseEnv with resolve := fun _ _ => none } pUni).2 rfl
  exact ⟨⟨by decide, h1.1, h1.2⟩, ⟨rfl, h2.1, h2.2⟩⟩

/-- Claim C4: whenever OpenUDP applies the multicast TTL socket option
(connect path, multicast remote address, positive effective TTL), the
byte-sized attempt always comes first; the integer-sized attempt happens
exactly when the byte-sized one failed; and the run succeeds iff at least
one of the two forms is accepted, failing fatally only when both fail. -/
theorem C4_ttl_byte_then_int (env : Env) (p : network_socket_t) (a r : Nat)
    (hres : env.resolve p.psz_bind_addr p.i_bind_port = some a)
    (hnm : IN_MULTICAST (a % 2 ^ 32) = false)
    (hs : env.socketOk = true) (hb : env.bindOk = true)
    (hr : env.resolve p.psz_server_addr p.i_server_port = some r)
    (hc : env.connectOk = true)
    (hsm : IN_MULTICAST (inetAddr env p.psz_server_addr) = true)
    (hmf : mifaceFatal env = false)
    (heff : effectiveTtl env p.i_ttl > 0) :
    ttlEvents (OpenUDP env p).trace =
      (if env.ttlByteOk then
        [Event.sockoptTtlByte ((effectiveTtl env p.i_ttl).toNat % 256) true]
      else if env.ttlIntOk then
        [Event.sockoptTtlByte ((effectiveTtl env p.i_ttl).toNat % 256) false,
         Event.sockoptTtlInt (effectiveTtl env p.i_ttl) true]
      else
        [Event.sockoptTtlByte ((effectiveTtl env p.i_ttl).toNat % 256) false,
         Event.sockoptTtlInt (effectiveTtl env p.i_ttl) false]) ∧
    ((OpenUDP env p).ret = 0 ↔ (env.ttlByteOk = true ∨ env.ttlIntOk = true)) := by
  obtain ⟨hret, htr⟩ := OpenUDP_connect_path env p a hres hnm hs hb
  rw [ttlEvents_connectEvents env p r hr hc hsm hmf] at htr
  constructor
  · rw [htr]
    simp only [ttlStepEvents]
    rw [if_pos heff]
  · rw [hret, connectFatal_eq_ttlStepFatal env p r hr hc hsm hmf]
    cases hby : env.ttlByteOk <;> cases hin : env.ttlIntOk <;>
      simp [ttlStepFatal, heff, hby, hin, VLC_EGENERIC]

/-- Witness for C4: an environment that rejects only the byte-sized TTL
form performs the byte attempt first, then succeeds via the integer
fallback, and the run succeeds (scenario with effective TTL 16). -/
theorem C4_ttl_byte_then_int_witness :
    ttlEvents (OpenUDP { baseEnv with ttlByteOk := false } pConn).trace =
      [Event.sockoptTtlByte 16 false, Event.sockoptTtlInt 16 true] ∧
    (OpenUDP { baseEnv with ttlByteOk := false } pConn).ret = 0 := by
  have h := C4_ttl_byte_then_int { baseEnv with ttlByteOk := false } pConn 0 0xEFFF0C2A
    (by decide) (by decide) rfl rfl (by decide) rfl (by decide) (by decide) (by decide)
  refine ⟨?_, h.2.mpr (Or.inr rfl)⟩
  rw [h.1]
  decide

/-- Claim C6: on the connect path with a multicast remote address, the TTL
applied (as the first, byte-sized attempt) is the explicitly configured
TTL when positive, and otherwise the config-store default TTL. -/
theorem C6_effective_ttl (env : Env) (p : network_socket_t) (a r : Nat)
    (hres : env.resolve p.psz_bind_addr p.i_bind_port = some a)
    (hnm : IN_MULTICAST (a % 2 ^ 32) = false)
    (hs : env.socketOk = true) (hb : env.bindOk = true)
    (hr : env.resolve p.psz_server_addr p.i_server_port = some r)
    (hc : env.connectOk = true)
    (hsm : IN_MULTICAST (inetAddr env p.psz_server_addr) = true)
    (hmf : mifaceFatal env = false)
    (heff : (if p.i_ttl > 0 then p.i_ttl else env.configTtl) > 0) :
    (ttlEvents (OpenUDP env p).trace).head? =
      some (Event.sockoptTtlByte
        ((if p.i_ttl > 0 then p.i_ttl else env.configTtl).toNat % 256)
        env.ttlByteOk) := by
  have heq : effectiveTtl env p.i_ttl =
      (if p.i_ttl > 0 then p.i_ttl else env.configTtl) := by
    unfold effectiveTtl
    by_cases h : p.i_ttl ≤ 0
    · rw [if_pos h, if_neg (by omega)]
    · rw [if_neg h, if_pos (by omega)]
  obtain ⟨-, htr⟩ := OpenUDP_connect_path env p a hres hnm hs hb
  rw [ttlEvents_connectEvents env p r hr hc hsm hmf] at htr
  rw [htr]
  simp only [ttlStepEvents, heq]
  rw [if_pos heff]
  cases hby : env.ttlByteOk <;> cases hin : env.ttlIntOk <;> simp

/-- Witness for C6: the spec scenario bind="":5004,
server="239.255.12.42":5004, ttl=0, config default ttl=16 applies byte
TTL 16. -/
theorem C6_effective_ttl_witness :
    (ttlEvents (OpenUDP baseEnv pConn).trace).head? =
      some (Event.sockoptTtlByte 16 true) := by
  have h := C6_effective_ttl baseEnv pConn 0 0xEFFF0C2A
    (by decide) (by decide) rfl rfl (by decide) rfl (by decide) (by decide) (by decide)
  rw [h]
  decide

/-- Claim C10: on the connect path with a multicast remote address, when
both the explicit TTL and the config-store default TTL are non-positive,
no multicast TTL socket option of either form is attempted and the run
still succeeds. -/
theorem C10_no_ttl_when_nonpositive (env : Env) (p : network_socket_t) (a r : Nat)
    (hres : env.resolve p.psz_bind_addr p.i_bind_port = some a)
    (hnm : IN_MULTICAST (a % 2 ^ 32) = false)
    (hs : env.socketOk = true) (hb : env.bindOk = true)
    (hr : env.resolve p.psz_server_addr p.i_server_port = some r)
    (hc : env.connectOk = true)
    (hsm : IN_MULTICAST (inetAddr env p.psz_server_addr) = true)
    (hmf : mifaceFatal env = false)
    (ht1 : p.i_ttl ≤ 0) (ht2 : env.configTtl ≤ 0) :
    ttlEvents (OpenUDP env p).trace = [] ∧ (OpenUDP env p).ret = 0 := by
  have heff : effectiveTtl env p.i_ttl ≤ 0 := by
    unfold effectiveTtl
    rw [if_pos ht1]
    exact ht2
  have hfat : ttlStepFatal env p.i_ttl = false := by
    unfold ttlStepFatal
    rw [if_neg (by omega)]
  obtain ⟨hret, htr⟩ := OpenUDP_connect_path env p a hres hnm hs hb
  rw [ttlEvents_connectEvents env p r hr hc hsm hmf] at htr
  constructor
  · rw [htr]
    simp only [ttlStepEvents]
    rw [if_neg (by omega)]
  · rw [hret, connectFatal_eq_ttlStepFatal env p r hr hc hsm hmf, hfat]
    simp

/-- Witness for C10: the multicast-send scenario with explicit ttl=0 and
config default ttl=0 attempts no TTL option and succeeds. -/
theorem C10_no_ttl_when_nonpositive_witness :
    ttlEvents (OpenUDP { baseEnv with configTtl := 0 } pConn).trace = [] ∧
    (OpenUDP { baseEnv with configTtl := 0 } pConn).ret = 0 := by
  exact C10_no_ttl_when_nonpositive { baseEnv with configTtl := 0 } pConn 0 0xEFFF0C2A
    (by decide) (by decide) rfl rfl (by decide) rfl (by decide) (by decide)
    (by decide) (by decide)

/-- Claim C5: with an empty bind address string, OpenUDP attempts to enable
broadcast reception (SO_BROADCAST) after a successful bind and a failure
of that call never changes the outcome; with a non-empty bind address, or
when bind never succeeds, broadcast reception is not enabled. -/
theorem C5_broadcast_iff_empty_bind (env : Env) (p : network_socket_t) :
    (∀ a, env.resolve p.psz_bind_addr p.i_bind_port = some a →
      env.socketOk = true → env.bindOk = true → p.psz_bind_addr = "" →
      Event.sockoptBroadcast env.broadcastOk ∈ (OpenUDP env p).trace) ∧
    (p.psz_bind_addr ≠ "" → hasBroadcast (OpenUDP env p).trace = false) ∧
    (env.bindOk = false → hasBroadcast (OpenUDP env p).trace = false) ∧
    (∀ b, (OpenUDP { env with broadcastOk := b } p).ret = (OpenUDP env p).ret) := by
  refine ⟨?_, ?_, ?_, ?_⟩
  · intro a hres hs hb hbe
    simp only [OpenUDP, hres]
    cases hm : IN_MULTICAST (a % 4294967296) <;>
      cases hjf : joinFatal env <;>
        cases hcf : connectFatal env p <;>
          simp [hs, hb, hbe, hm, hjf, hcf]
  · intro hbe
    cases hres : env.resolve p.psz_bind_addr p.i_bind_port with
    | none => simp [OpenUDP, hres, isBroadcastEvent]
    | some a =>
      simp only [OpenUDP, hres]
      cases hs : env.socketOk <;>
        cases hb : env.bindOk <;>
          cases hm : IN_MULTICAST (a % 4294967296) <;>
            cases hjf : joinFatal env <;>
              cases hcf : connectFatal env p <;>
                simp [hs, hb, hbe, hm, hjf, hcf, isBroadcastEvent]
  · intro hbf
    cases hres : env.resolve p.psz_bind_addr p.i_bind_port with
    | none => simp [OpenUDP, hres, isBroadcastEvent]
    | some a =>
      simp only [OpenUDP, hres]
      cases hs : env.socketOk <;> simp [hs, hbf, isBroadcastEvent]
  · intro b
    cases hres : env.resolve p.psz_bind_addr p.i_bind_port with
    | none => simp [OpenUDP, hres]
    | some a =>
      simp [OpenUDP, hres, apply_ite UDPResult.ret, joinFatal, connectFatal,
        mifaceFatal, ttlStepFatal, effectiveTtl, inetAddr, mtuValue]

/-- Witness for C5: the wildcard-bind scenario enables broadcast after
bind, the multicast-bind scenario does not, and disabling the broadcast
call does not change the return value. -/
theorem C5_broadcast_iff_empty_bind_witness :
    Event.sockoptBroadcast true ∈ (OpenUDP baseEnv pUni).trace ∧
    hasBroadcast (OpenUDP baseEnv pMulti).trace = false ∧
    (OpenUDP { baseEnv with broadcastOk := false } pUni).ret =
      (OpenUDP baseEnv pUni).ret := by
  refine ⟨?_, ?_, ?_⟩
  · exact (C5_broadcast_iff_empty_bind baseEnv pUni).1 0 (by decide) rfl rfl rfl
  · exact (C5_broadcast_iff_empty_bind baseEnv pMulti).2.1 (by decide)
  · exact (C5_broadcast_iff_empty_bind baseEnv pUni).2.2.2 false

/-- Claim C7: once the socket is created, all four tuning options (address
reuse, port reuse, 512KB receive buffer, 512KB send buffer) are attempted,
each recorded with its own outcome, and no combination of their failures
changes the outcome of setup. -/
theorem C7_tuning_nonfatal (env : Env) (p : network_socket_t) (a : Nat)
    (hres : env.resolve p.psz_bind_addr p.i_bind_port = some a)
    (hs : env.socketOk = true) :
    Event.sockoptReuseAddr env.reuseAddrOk ∈ (OpenUDP env p).trace ∧
    Event.sockoptReusePort env.reusePortOk ∈ (OpenUDP env p).trace ∧
    Event.sockoptRcvBuf 524288 env.rcvbufOk ∈ (OpenUDP env p).trace ∧
    Event.sockoptSndBuf 524288 env.sndbufOk ∈ (OpenUDP env p).trace ∧
    (∀ b1 b2 b3 b4,
      (OpenUDP { env with reuseAddrOk := b1, reusePortOk := b2, rcvbufOk := b3, sndbufOk := b4 } p).ret =
        (OpenUDP env p).ret) := by
  refine ⟨?_, ?_, ?_, ?_, ?_⟩ <;>
    [skip; skip; skip; skip;
      · intro b1 b2 b3 b4
        simp [OpenUDP, hres, apply_ite UDPResult.ret, joinFatal, connectFatal,
          mifaceFatal, ttlStepFatal, effectiveTtl, inetAddr, mtuValue]] <;>
  · simp only [OpenUDP, hres]
    cases hb : env.bindOk <;>
      by_cases hbe : p.psz_bind_addr = "" <;>
        cases hm : IN_MULTICAST (a % 4294967296) <;>
          cases hjf : joinFatal env <;>
            cases hcf : connectFatal env p <;>
              simp [hs, hb, hbe, hm, hjf, hcf]

/-- Witness for C7: in an environment where the receive-buffer request
fails, all four tuning attempts still appear and setup still succeeds. -/
theorem C7_tuning_nonfatal_witness :
    Event.sockoptReuseAddr true ∈
      (OpenUDP { baseEnv with rcvbufOk := false } pUni).trace ∧
    Event.sockoptRcvBuf 524288 false ∈
      (OpenUDP { baseEnv with rcvbufOk := false } pUni).trace ∧
    (OpenUDP { baseEnv with reuseAddrOk := false, reusePortOk := false, rcvbufOk := false, sndbufOk := false } pUni).ret =
      (OpenUDP baseEnv pUni).ret := by
  have h1 := C7_tuning_nonfatal { baseEnv with rcvbufOk := false } pUni 0 (by decide) rfl
  have h2 := C7_tuning_nonfatal baseEnv pUni 0 (by decide) rfl
  exact ⟨h1.1, h1.2.2.1, h2.2.2.2.2 false false false false⟩

/-- Claim C8: on the multicast join path, the interface field of the
group-membership request is the configured "miface-addr" whenever that
config value is present, non-empty and parseable as an IPv4 address, and
the wildcard `INADDR_ANY` in every other case. -/
theorem C8_join_interface (env : Env) (p : network_socket_t) (a : Nat)
    (hres : env.resolve p.psz_bind_addr p.i_bind_port = some a)
    (hmult : IN_MULTICAST (a % 2 ^ 32) = true)
    (hs : env.socketOk = true) (hb : env.bindOk = true) :
    (∀ s, env.mifaceAddr = some s → s ≠ "" → inetAddr env s ≠ INADDR_NONE →
      Event.addSourceMembership (a % 2 ^ 32) (inetAddr env p.psz_server_addr)
        (inetAddr env s) env.addSourceMembershipOk ∈ (OpenUDP env p).trace) ∧
    ((∀ s, env.mifaceAddr = some s → s = "" ∨ inetAddr env s = INADDR_NONE) →
      Event.addSourceMembership (a % 2 ^ 32) (inetAddr env p.psz_server_addr)
        INADDR_ANY env.addSourceMembershipOk ∈ (OpenUDP env p).trace) := by
  norm_num at hmult
  constructor
  · intro s hmi hne hia
    have hji : joinIntf env = inetAddr env s := by
      simp [joinIntf, hmi, hne, hia]
    simp only [OpenUDP, hres]
    by_cases hbe : p.psz_bind_addr = "" <;>
      cases hjf : joinFatal env <;>
        simp [hs, hb, hbe, hmult, hjf, joinEvents, hji]
  · intro hno
    have hji : joinIntf env = INADDR_ANY := by
      cases hmi : env.mifaceAddr with
      | none => simp [joinIntf, hmi]
      | some s =>
        have hd := hno s hmi
        have hneg : ¬(s ≠ "" ∧ inetAddr env s ≠ INADDR_NONE) := by tauto
        simp [joinIntf, hmi, hneg]
    simp only [OpenUDP, hres]
    by_cases hbe : p.psz_bind_addr = "" <;>
      cases hjf : joinFatal env <;>
        simp [hs, hb, hbe, hmult, hjf, joinEvents, hji]

/-- Witness for C8: with "miface-addr" configured to the resolvable
"10.0.0.5" the join uses that interface; with no "miface-addr" configured
the join uses `INADDR_ANY` (= 0). -/
theorem C8_join_interface_witness :
    Event.addSourceMembership 0xEFFF0C2A 0x0A000005 0x0A000005 true ∈
      (OpenUDP { baseEnv with mifaceAddr := some "10.0.0.5" } pMulti).trace ∧
    Event.addSourceMembership 0xEFFF0C2A 0x0A000005 0 true ∈
      (OpenUDP baseEnv pMulti).trace := by
  have h1 := (C8_join_interface { baseEnv with mifaceAddr := some "10.0.0.5" }
      pMulti 0xEFFF0C2A (by decide) (by decide) rfl rfl).1
    "10.0.0.5" rfl (by decide) (by decide)
  have h2 := (C8_join_interface baseEnv pMulti 0xEFFF0C2A
      (by decide) (by decide) rfl rfl).2
    (by intro s hcontra; simp [baseEnv] at hcontra)
  exact ⟨h1, h2⟩

/-- Claim C9: on success, OpenUDP stores in the output MTU field the value
of the session variable "mtu" when it already exists; otherwise it first
creates that variable (so a `var_Create` appears in the trace, and the
value read back is the inherited configured default).  In both cases a
successful `var_Get` of "mtu" occurs. -/
theorem C9_mtu_attachment (env : Env) (p : network_socket_t)
    (h : (OpenUDP env p).ret = 0) :
    Event.varGetMtu true ∈ (OpenUDP env p).trace ∧
    (∀ v, env.mtuVar = some v →
      (OpenUDP env p).sock.i_mtu = v ∧
      hasVarCreate (OpenUDP env p).trace = false) ∧
    (env.mtuVar = none →
      (OpenUDP env p).sock.i_mtu = env.defaultMtu ∧
      hasVarCreate (OpenUDP env p).trace = true) := by
  cases hres : env.resolve p.psz_bind_addr p.i_bind_port with
  | none => simp [OpenUDP, hres, VLC_EGENERIC] at h
  | some a =>
    simp only [OpenUDP, hres] at h ⊢
    cases hs : env.socketOk with
    | false => simp [hs, VLC_EGENERIC] at h
    | true =>
      cases hb : env.bindOk with
      | false => simp [hs, hb, VLC_EGENERIC] at h
      | true =>
        by_cases hbe : p.psz_bind_addr = "" <;>
          cases hm : IN_MULTICAST (a % 4294967296) <;>
            cases hjf : joinFatal env <;>
              cases hcf : connectFatal env p <;>
                cases hmv : env.mtuVar <;>
                  simp_all [mtuValue, mtuEvents, isVarCreateEvent, VLC_EGENERIC]

/-- Witness for C9: a successful run with no pre-existing "mtu" variable
creates it and attaches the configured default 1500; a successful run with
"mtu" already set to 1400 attaches 1400 without creating the variable. -/
theorem C9_mtu_attachment_witness :
    ((OpenUDP baseEnv pUni).ret = 0 ∧
      (OpenUDP baseEnv pUni).sock.i_mtu = 1500 ∧
      hasVarCreate (OpenUDP baseEnv pUni).trace = true) ∧
    ((OpenUDP { baseEnv with mtuVar := some 1400 } pUni).ret = 0 ∧
      (OpenUDP { baseEnv with mtuVar := some 1400 } pUni).sock.i_mtu = 1400 ∧
      hasVarCreate (OpenUDP { baseEnv with mtuVar := some 1400 } pUni).trace =
        false) := by
  have h0 : (OpenUDP baseEnv pUni).ret = 0 := by decide
  have h1 := C9_mtu_attachment baseEnv pUni h0
  have g0 : (OpenUDP { baseEnv with mtuVar := some 1400 } pUni).ret = 0 := by decide
  have g1 := C9_mtu_attachment { baseEnv with mtuVar := some 1400 } pUni g0
  exact ⟨⟨h0, (h1.2.2 rfl).1, (h1.2.2 rfl).2⟩,
    ⟨g0, (g1.2.1 1400 rfl).1, (g1.2.1 1400 rfl).2⟩⟩

/-- Claim C2, evaluated at the failing input: with the multicast bind
address "239.255.12.42" and NO server/source address supplied (empty
string), OpenUDP still performs the source-specific join: the
group-membership call in the trace is IP_ADD_SOURCE_MEMBERSHIP with source
field `inet_addr("") = INADDR_NONE`.  The unconditional use of the
source-specific mechanism contradicts the claim (and the code's own
comment) that an absent source address yields an unfiltered join. -/
theorem C2_join_always_source_specific :
    pNoSrc.psz_server_addr = "" ∧
    Event.addSourceMembership 0xEFFF0C2A INADDR_NONE INADDR_ANY true ∈
      (OpenUDP baseEnv pNoSrc).trace ∧
    (OpenUDP baseEnv pNoSrc).ret = 0 := by
  decide

end Ipv4
